import Mathlib

/-!
Verification of the Denguess forecasting service (src/backend/app.py and the
training scripts) against its natural-language specification.

The serving pipeline of `app.py` is embedded shallowly:

* dates are a `Date` structure with the Gregorian calendar arithmetic the code
  obtains from `datetime` / `pandas` (`timetuple().tm_yday`, `timedelta(weeks=k)`,
  `isocalendar().week`);
* climate values and probabilities are `ℚ` (the Python code computes with IEEE
  doubles; every constant appearing in the claims is decimal and is carried
  exactly here);
* `numpy`'s transcendental functions (`sin`/`cos` of `2π·x`, `sqrt`, `log1p`)
  are opaque parameters of the configuration: no claim depends on their values,
  only on which arguments they receive;
* the scikit-learn classifier is an opaque function returning
  `Option (ℚ × ℚ)` — `none` models `predict_proba` raising or returning a
  malformed row, which `app.py` catches in the inner `try`;
* process-global state (loaded model, persisted feature-name list, barangay
  encoder classes, cached historical baselines) is passed explicitly as a
  `ServingConfig`; the wall clock (`datetime.now()`) is an explicit argument;
* Python exceptions are `Except`: the per-week `try` of the forecast loop and
  the outer `try` of the `/predict` handler become `match`es on `Except`.
-/

namespace Denguess

/-- A Gregorian calendar date, as handled by `datetime.date` in the source. -/
structure Date where
  year : ℕ
  month : ℕ
  day : ℕ
  deriving DecidableEq, Repr


/-- Gregorian leap-year rule. -/
def isLeap (y : ℕ) : Bool :=
  y % 4 = 0 && (y % 100 ≠ 0 || y % 400 = 0)


/-- Number of days in a month of a given year. -/
def daysInMonth (y m : ℕ) : ℕ :=
  if m = 2 then (if isLeap y then 29 else 28)
  else if m ∈ [4, 6, 9, 11] then 30
  else 31


/-- Days in year `y` strictly before month `m`. -/
def daysBeforeMonth (y m : ℕ) : ℕ :=
  (List.range (m - 1)).foldl (fun acc i => acc + daysInMonth y (i + 1)) 0


/-- Ordinal day within the year, 1-based: `date.timetuple().tm_yday`. -/
def dayOfYear (d : Date) : ℕ :=
  daysBeforeMonth d.year d.month + d.day


/-- The day after `d`. -/
def nextDay (d : Date) : Date :=
  if d.day < daysInMonth d.year d.month then ⟨d.year, d.month, d.day + 1⟩
  else if d.month < 12 then ⟨d.year, d.month + 1, 1⟩
  else ⟨d.year + 1, 1, 1⟩


/-- Date plus `n` days: `d + timedelta(days=n)`. -/
def addDays (d : Date) : ℕ → Date
  | 0 => d
  | n + 1 => addDays (nextDay d) n


/-- Days strictly before year `y` in the proleptic Gregorian calendar
(`0001-01-01` is day 1, as in `datetime.date.toordinal`). -/
def daysBeforeYear (y : ℕ) : ℕ :=
  365 * (y - 1) + ((y - 1) / 4 - (y - 1) / 100) + (y - 1) / 400


/-- Proleptic Gregorian ordinal of a date (`datetime.date.toordinal`). -/
def toOrdinal (d : Date) : ℕ :=
  daysBeforeYear d.year + dayOfYear d


/-- ISO day of week, Monday = 1 … Sunday = 7 (`date.isoweekday()`).
`0001-01-01` was a Monday. -/
def isoDayOfWeek (d : Date) : ℕ :=
  (toOrdinal d - 1) % 7 + 1


/-- Weekday of 1 January of year `y+1` relative offset, used by the ISO
"long year" criterion. -/
def isoYearShift (y : ℕ) : ℕ :=
  (y + (y / 4 + y / 400) - y / 100) % 7


/-- Number of ISO weeks in year `y` (52 or 53). -/
def weeksInISOYear (y : ℕ) : ℕ :=
  if isoYearShift y = 4 ∨ isoYearShift (y - 1) = 3 then 53 else 52


/-- ISO 8601 week-of-year (`date.isocalendar().week`, as used both by the
serving estimator and by pandas `isocalendar()` when the baselines are built). -/
def isoWeek (d : Date) : ℕ :=
  let w : ℤ := ((dayOfYear d : ℤ) - (isoDayOfWeek d : ℤ) + 10) / 7
  if w < 1 then weeksInISOYear (d.year - 1)
  else if (weeksInISOYear d.year : ℤ) < w then 1
  else w.toNat


/-- Round-half-to-even to an integer, the rounding `round()` applies to an
exactly representable value in CPython. -/
def roundHalfEven (x : ℚ) : ℤ :=
  if x - ⌊x⌋ < 1 / 2 then ⌊x⌋
  else if 1 / 2 < x - ⌊x⌋ then ⌊x⌋ + 1
  else if ⌊x⌋ % 2 = 0 then ⌊x⌋ else ⌊x⌋ + 1


/-- Python `round(x, n)`: round to `n` decimal digits, ties to even. -/
def roundTo (n : ℕ) (x : ℚ) : ℚ :=
  (roundHalfEven (x * 10 ^ n) : ℚ) / 10 ^ n


/-- First value bound to a key in an association list (models both the Python
`dict` lookups on the baseline dictionaries and column access on the one-row
feature `DataFrame`). -/
def lookupKey {α β : Type} [DecidableEq α] (a : α) : List (α × β) → Option β
  | [] => none
  | (k, v) :: rest => if k = a then some v else lookupKey a rest


/-- Risk categorization, `get_risk_level` of `app.py` (lines 341-356). -/
def get_risk_level (probability : ℚ) : String :=
  if probability < 30 / 100 then "Low"
  else if probability < 60 / 100 then "Moderate"
  else "High"


/-- A climate triple (the `{'rainfall': …, 'temperature': …, 'humidity': …}`
dicts passed around by `app.py`, and the `ClimateInput` request model). -/
structure Climate where
  rainfall : ℚ
  temperature : ℚ
  humidity : ℚ
  deriving DecidableEq, Repr


/-- The cached baseline dictionaries built by `load_historical_climate`:
mean climate by ISO week-of-year and by calendar month. -/
structure Historical where
  weekly : List (ℕ × Climate)
  monthly : List (ℕ × Climate)


/-- The `climate_used` sub-record of a weekly forecast entry. -/
structure ClimateUsed where
  rainfall : ℚ
  temperature : ℚ
  humidity : ℚ
  source : String
  deriving DecidableEq, Repr


/-- One entry of the `weekly_forecast` list (`WeeklyForecast` response model). -/
structure WeeklyForecast where
  week : String
  risk : String
  probability : ℚ
  outbreak_probability : ℚ
  climate_used : ClimateUsed
  deriving DecidableEq, Repr


/-- The `model_info` dict attached to a prediction response.  On the normal
path it holds `model_type`, `features_used` and `prediction_date`; on the
outer-fallback path it holds `error` and `prediction_date`. -/
structure ModelInfo where
  model_type : Option String
  features_used : Option (List String)
  error : Option String
  prediction_date : String
  deriving DecidableEq, Repr


/-- The `/predict` response body (`PredictionResponse` model). -/
structure PredictionResponse where
  weekly_forecast : List WeeklyForecast
  model_info : ModelInfo
  deriving DecidableEq, Repr


/-- The `/predict` request body (`PredictionRequest` model). -/
structure PredictionRequest where
  barangay : String
  climate : Climate
  date : String
  deriving DecidableEq, Repr


/-- A FastAPI `HTTPException`. -/
structure HTTPException where
  status : ℕ
  detail : String
  deriving DecidableEq, Repr


/-- Process-global serving state, passed explicitly: the loaded model flag,
the persisted feature-name list, the barangay encoder classes, the cached
historical baselines, the classifier's `predict_proba` row (with `none`
standing for a raised exception or a malformed probability row), and opaque
stand-ins for numpy's transcendental functions (`sin2pi x` abstracts
`np.sin(2 * np.pi * x)`, and likewise `cos2pi`; `sqrtQ`/`log1pQ` abstract
`np.sqrt`/`np.log1p`). -/
structure ServingConfig where
  modelLoaded : Bool
  model_type : String
  feature_names : Option (List String)
  encoderClasses : Option (List String)
  historical : Option Historical
  classifier : List (String × ℚ) → Option (ℚ × ℚ)
  sin2pi : ℚ → ℚ
  cos2pi : ℚ → ℚ
  sqrtQ : ℚ → ℚ
  log1pQ : ℚ → ℚ


/-- The barangay alias table duplicated at `app.py` lines 378-391 and 586-599. -/
def barangayVariations : List (String × String) :=
  [("general paulino santos", "General Paulino Santos"),
   ("general paulino", "General Paulino Santos"),
   ("gps", "General Paulino Santos"),
   ("zone ii", "Zone II"),
   ("zone 2", "Zone II"),
   ("zone2", "Zone II"),
   ("santa cruz", "Santa Cruz"),
   ("sto. niño", "Sto. Niño"),
   ("sto niño", "Sto. Niño"),
   ("st. niño", "Sto. Niño"),
   ("santo niño", "Sto. Niño"),
   ("morales", "Morales")]


/-- Whitespace as stripped by Python `str.strip()`. -/
def isSpaceChar (c : Char) : Bool :=
  c = ' ' || c = '\t' || c = '\n' || c = '\r'


/-- Python `str.strip()`. -/
def trimStr (s : String) : String :=
  ⟨((s.data.dropWhile isSpaceChar).reverse.dropWhile isSpaceChar).reverse⟩


/-- Python `str.lower()` (the names being compared are ASCII up to `ñ`, which
is already lower case in the alias table). -/
def toLowerStr (s : String) : String :=
  ⟨s.data.map Char.toLower⟩


/-- Normalize a barangay name: trim, then case-insensitive alias lookup
(`app.py` lines 376-396 and 584-602). -/
def normalizeBarangay (b : String) : String :=
  let t := trimStr b
  match lookupKey (toLowerStr t) barangayVariations with
  | some canonical => canonical
  | none => t


/-- The fixed fallback name→code table of `prepare_features` (lines 419-426),
used when no encoder is persisted. -/
def barangayFallbackMap : List (String × ℕ) :=
  [("General Paulino Santos", 0), ("Morales", 1), ("Santa Cruz", 2),
   ("Sto. Niño", 3), ("Zone II", 4)]


/-- Barangay encoding of `prepare_features` (lines 398-428).  With a persisted
encoder, `transform` returns the index of the name among the encoder classes
and raises for an unknown name; the `except` branch then retries an exact
match against `classes_` (which must fail again) and settles on 0.  Without an
encoder the fixed table is used with default 0. -/
def encodeBarangay (classes : Option (List String)) (name : String) : ℕ :=
  match classes with
  | some cs => if name ∈ cs then cs.indexOf name else 0
  | none => (lookupKey name barangayFallbackMap).getD 0


/-- The serving "quarter" feature: `date.timetuple().tm_yday // 91 + 1`
(`app.py` line 440). -/
def serveQuarter (d : Date) : ℕ :=
  dayOfYear d / 91 + 1


/-- The training "quarter" feature: `df['date'].dt.quarter` in
`create_advanced_features` of `retrain_model.py` line 123 (and identically in
`retrain_model_enhanced.py`, `evaluate_model.py`, `verify_model_performance.py`),
i.e. the calendar quarter of the month. -/
def trainQuarter (d : Date) : ℕ :=
  (d.month - 1) / 3 + 1


/-- The feature dict built by `prepare_features` (lines 430-496), in insertion
order, before the reindexing step. -/
def computedFeatures (cfg : ServingConfig) (rainfall temperature humidity : ℚ)
    (barangay : String) (date : Date) : List (String × ℚ) :=
  let barangay_encoded : ℚ := (encodeBarangay cfg.encoderClasses (normalizeBarangay barangay) : ℕ)
  let month := date.month
  let day_of_year := dayOfYear date
  [("rainfall", rainfall), ("temperature", temperature), ("humidity", humidity),
   ("barangay_encoded", barangay_encoded),
   ("month", (month : ℚ)), ("quarter", (serveQuarter date : ℚ)),
   ("day_of_year", (day_of_year : ℚ)),
   ("month_sin", cfg.sin2pi ((month : ℚ) / 12)),
   ("month_cos", cfg.cos2pi ((month : ℚ) / 12)),
   ("day_of_year_sin", cfg.sin2pi ((day_of_year : ℚ) / 365)),
   ("day_of_year_cos", cfg.cos2pi ((day_of_year : ℚ) / 365)),
   ("temp_rainfall_interaction", temperature * rainfall),
   ("temp_humidity_interaction", temperature * humidity),
   ("rainfall_humidity_interaction", rainfall * humidity),
   ("temp_rainfall_humidity_interaction", temperature * rainfall * humidity),
   ("rainfall_squared", rainfall ^ 2),
   ("temperature_squared", temperature ^ 2),
   ("humidity_squared", humidity ^ 2),
   ("rainfall_sqrt", cfg.sqrtQ (rainfall + 1 / 1000000)),
   ("temperature_sqrt", cfg.sqrtQ (temperature + 1 / 1000000)),
   ("rainfall_temp_ratio", rainfall / (temperature + 1 / 1000000)),
   ("humidity_temp_ratio", humidity / (temperature + 1 / 1000000)),
   ("rainfall_humidity_ratio", rainfall / (humidity + 1 / 1000000)),
   ("mosquito_breeding_index", (temperature - 20) * (humidity / 100) * (rainfall / 100)),
   ("dengue_risk_index", (temperature / 30) * (humidity / 80) * cfg.log1pQ (rainfall / 10)),
   ("is_rainy_season", if month ∈ [6, 7, 8, 9, 10, 11] then 1 else 0),
   ("is_dry_season", if month ∈ [12, 1, 2, 3, 4, 5] then 1 else 0),
   ("is_peak_season", if month ∈ [7, 8, 9] then 1 else 0),
   ("temp_optimal", if 25 ≤ temperature ∧ temperature ≤ 30 then 1 else 0),
   ("temp_high", if 30 < temperature then 1 else 0),
   ("temp_low", if temperature < 25 then 1 else 0),
   ("humidity_optimal", if 60 ≤ humidity ∧ humidity ≤ 80 then 1 else 0),
   ("humidity_high", if 80 < humidity then 1 else 0),
   ("humidity_low", if humidity < 60 then 1 else 0),
   ("rainfall_high", if 100 < rainfall then 1 else 0),
   ("rainfall_moderate", if 50 ≤ rainfall ∧ rainfall ≤ 100 then 1 else 0),
   ("rainfall_low", if rainfall < 50 then 1 else 0),
   ("high_risk_combination",
     if 25 ≤ temperature ∧ temperature ≤ 30 ∧ 60 ≤ humidity ∧ humidity ≤ 80 ∧ 100 < rainfall
     then 1 else 0)]


/-- `prepare_features` (lines 368-511): build the feature dict, then — when a
persisted feature-name list exists — add every listed-but-missing feature with
value 0 and select the columns of the list in its exact order
(`features_df[feature_names]`). -/
def prepare_features (cfg : ServingConfig) (rainfall temperature humidity : ℚ)
    (barangay : String) (date : Date) : List (String × ℚ) :=
  let features := computedFeatures cfg rainfall temperature humidity barangay date
  match cfg.feature_names with
  | none => features
  | some names =>
    let missing := names.filter (fun n => (lookupKey n features).isNone)
    let filled := features ++ missing.map (fun n => (n, (0 : ℚ)))
    names.map (fun n => (n, (lookupKey n filled).getD 0))


/-- `get_historical_climate_for_date` (lines 150-217): weekly-baseline tier,
then monthly tier, then base-climate fallback, each with its own progressive
drift constants; fixed default `(100, 28, 75)` when nothing is available. -/
def get_historical_climate_for_date (historical : Option Historical)
    (target_date : Date) (base_climate : Option Climate) (week_offset : ℕ) : Climate :=
  match historical with
  | none =>
    match base_climate with
    | some base =>
      let variation_factor : ℚ := 1 + (week_offset : ℚ) * (2 / 100)
      { rainfall := base.rainfall * variation_factor
        temperature := base.temperature + (week_offset : ℚ) * (1 / 10)
        humidity := base.humidity + (week_offset : ℚ) * (5 / 10) }
    | none => { rainfall := 100, temperature := 28, humidity := 75 }
  | some h =>
    match lookupKey (isoWeek target_date) h.weekly with
    | some c =>
      if 0 < week_offset then
        { rainfall := c.rainfall * (1 + (week_offset : ℚ) * (3 / 100))
          temperature := c.temperature + (week_offset : ℚ) * (2 / 10)
          humidity := c.humidity + (week_offset : ℚ) * (3 / 10) }
      else c
    | none =>
      match lookupKey target_date.month h.monthly with
      | some c =>
        if 0 < week_offset then
          { rainfall := c.rainfall * (1 + (week_offset : ℚ) * (5 / 100))
            temperature := c.temperature + (week_offset : ℚ) * (3 / 10)
            humidity := c.humidity + (week_offset : ℚ) * (5 / 10) }
        else c
      | none =>
        match base_climate with
        | some base =>
          let variation_factor : ℚ := 1 + (week_offset : ℚ) * (3 / 100)
          { rainfall := base.rainfall * variation_factor
            temperature := base.temperature + (week_offset : ℚ) * (2 / 10)
            humidity := base.humidity + (week_offset : ℚ) * (4 / 10) }
        | none => { rainfall := 100, temperature := 28, humidity := 75 }


/-- Month names for `strftime("%B %d")`. -/
def monthName (m : ℕ) : String :=
  match m with
  | 1 => "January" | 2 => "February" | 3 => "March" | 4 => "April"
  | 5 => "May" | 6 => "June" | 7 => "July" | 8 => "August"
  | 9 => "September" | 10 => "October" | 11 => "November" | 12 => "December"
  | _ => ""


/-- Zero-padded two-digit day, as printed by `%d`. -/
def pad2 (n : ℕ) : String :=
  if n < 10 then "0" ++ toString n else toString n


/-- `format_week_range` (lines 358-366). -/
def format_week_range (start_date : Date) : String :=
  let end_date := addDays start_date 6
  let start_str := monthName start_date.month ++ " " ++ pad2 start_date.day
  if start_date.month = end_date.month then
    start_str ++ "–" ++ pad2 end_date.day
  else
    start_str ++ " – " ++ monthName end_date.month ++ " " ++ pad2 end_date.day


/-- The probability-selection logic of the forecast loop (`app.py` lines
656-674): take the outbreak-class probability from `predict_proba`, substitute
0.45 when the call raised or its output was malformed (`none`), then replace
any value outside `[0, 1]` by 0.45. -/
def selectProbability (probs : Option (ℚ × ℚ)) : ℚ :=
  let outbreak_prob : ℚ :=
    match probs with
    | some p => p.2
    | none => 45 / 100
  if 0 ≤ outbreak_prob ∧ outbreak_prob ≤ 1 then outbreak_prob else 45 / 100


/-- The climate clamp of the forecast loop (`app.py` lines 638-641). -/
def clampClimate (c : Climate) : Climate :=
  { rainfall := max 0 c.rainfall
    temperature := max 20 (min 35 c.temperature)
    humidity := max 40 (min 100 c.humidity) }


/-- Climate selection of the forecast loop (lines 630-636): week 0 copies the
caller's base climate, later weeks ask the historical estimator with the week
index as `week_offset`. -/
def weekClimate (cfg : ServingConfig) (base : Climate) (start_date : Date) (k : ℕ) : Climate :=
  if k = 0 then base
  else get_historical_climate_for_date cfg.historical (addDays start_date (7 * k)) (some base) k


/-- The body of one iteration of the forecast loop (`app.py` lines 625-693),
inside the per-week `try`.  The only statement of the body that can raise
outside the inner (already-caught) prediction `try` is the explicit
`raise ValueError` on an empty feature frame (lines 653-654), which happens
exactly when the reindexed feature row has no columns. -/
def processWeek (cfg : ServingConfig) (base : Climate) (start_date : Date)
    (barangay : String) (k : ℕ) : Except String WeeklyForecast :=
  let week_start := addDays start_date (7 * k)
  let climate_data := clampClimate (weekClimate cfg base start_date k)
  let features_df := prepare_features cfg climate_data.rainfall climate_data.temperature
    climate_data.humidity barangay week_start
  if features_df.isEmpty then
    Except.error "Empty features DataFrame"
  else
    let probability := selectProbability (cfg.classifier features_df)
    Except.ok
      { week := format_week_range week_start
        risk := get_risk_level probability
        probability := roundTo 4 probability
        outbreak_probability := roundTo 4 probability
        climate_used :=
          { rainfall := roundTo 1 climate_data.rainfall
            temperature := roundTo 1 climate_data.temperature
            humidity := roundTo 1 climate_data.humidity
            source := if k = 0 then "current" else "historical_average" } }


/-- The per-week fallback record appended by the `except` of the forecast loop
(`app.py` lines 694-710). -/
def fallbackWeekRecord (base : Climate) (start_date : Date) (k : ℕ) : WeeklyForecast :=
  { week := format_week_range (addDays start_date (7 * k))
    risk := "Moderate"
    probability := 45 / 100
    outbreak_probability := 45 / 100
    climate_used :=
      { rainfall := roundTo 1 base.rainfall
        temperature := roundTo 1 base.temperature
        humidity := roundTo 1 base.humidity
        source := "fallback" } }


/-- The 4-week forecast loop (`for week_num in range(4)` with its per-week
`try`/`except`). -/
def forecastWeeks (cfg : ServingConfig) (base : Climate) (start_date : Date)
    (barangay : String) : List WeeklyForecast :=
  (List.range 4).map fun k =>
    match processWeek cfg base start_date barangay k with
    | Except.ok rec => rec
    | Except.error _ => fallbackWeekRecord base start_date k


/-- Split a character list at a separator (all occurrences). -/
def splitOnChar (sep : Char) : List Char → List (List Char)
  | [] => [[]]
  | c :: rest =>
    match splitOnChar sep rest with
    | [] => if c = sep then [[], []] else [[c]]
    | h :: t => if c = sep then [] :: h :: t else (c :: h) :: t


/-- Read a non-empty all-digit character list as a number. -/
def digitsToNat (l : List Char) : Option ℕ :=
  if l ≠ [] ∧ l.all Char.isDigit then
    some (l.foldl (fun acc c => acc * 10 + (c.toNat - 48)) 0)
  else none


/-- Parse a request date: `datetime.strptime(s, "%Y-%m-%d")`, `none` on a
malformed string or out-of-range calendar components. -/
def parseDate (s : String) : Option Date :=
  match (splitOnChar '-' s.data).map digitsToNat with
  | [some y, some m, some d] =>
    if 1 ≤ m ∧ m ≤ 12 ∧ 1 ≤ d ∧ d ≤ daysInMonth y m then some ⟨y, m, d⟩ else none
  | _ => none


/-- An exception escaping the body of the `/predict` handler: either a
`fastapi.HTTPException` or any other Python exception. -/
inductive PredictError where
  | http : HTTPException → PredictError
  | generic : String → PredictError
  deriving DecidableEq, Repr


/-- The body of the `/predict` handler up to the end of its outer `try`
(`app.py` lines 568-726): model presence check, climate validation, barangay
normalization, date parsing, the 4-week loop, the empty-forecast check, and
response assembly.  `now` is `datetime.now().isoformat()`. -/
def predictBody (cfg : ServingConfig) (req : PredictionRequest) (now : String) :
    Except PredictError PredictionResponse :=
  if cfg.modelLoaded = false then
    Except.error (PredictError.http
      ⟨503, "Model not loaded. Please ensure rf_dengue_model.pkl exists."⟩)
  else if ¬(0 ≤ req.climate.temperature ∧ req.climate.temperature ≤ 50) then
    Except.error (PredictError.http ⟨400, "Temperature must be between 0 and 50°C"⟩)
  else if ¬(0 ≤ req.climate.humidity ∧ req.climate.humidity ≤ 100) then
    Except.error (PredictError.http ⟨400, "Humidity must be between 0 and 100%"⟩)
  else if req.climate.rainfall < 0 then
    Except.error (PredictError.http ⟨400, "Rainfall cannot be negative"⟩)
  else
    match parseDate req.date with
    | none => Except.error (PredictError.http ⟨400, "Invalid date format. Use YYYY-MM-DD"⟩)
    | some start_date =>
      let wf := forecastWeeks cfg req.climate start_date (normalizeBarangay req.barangay)
      if wf.isEmpty then
        Except.error (PredictError.generic "Failed to generate any forecasts")
      else
        Except.ok
          { weekly_forecast := wf
            model_info :=
              { model_type := some cfg.model_type
                features_used := some (cfg.feature_names.getD [])
                error := none
                prediction_date := now } }


/-- The outer `except Exception` handler of `/predict` (`app.py` lines
730-755): rebuild all 4 weeks as fallback records from the caller-supplied
climate.  The handler itself re-parses the request date (falling back to the
current date only for an *empty* date string); were the date unparseable the
handler would raise, surfacing as an HTTP 500. -/
def outerFallback (req : PredictionRequest) (errMsg now : String) (nowDate : Date) :
    Except HTTPException PredictionResponse :=
  match (if req.date = "" then some nowDate else parseDate req.date) with
  | none => Except.error ⟨500, "Internal Server Error"⟩
  | some start_date =>
    Except.ok
      { weekly_forecast := (List.range 4).map fun k => fallbackWeekRecord req.climate start_date k
        model_info :=
          { model_type := none
            features_used := none
            error := some errMsg
            prediction_date := now } }


/-- The `/predict` endpoint (`app.py` lines 560-755): run the body; re-raise
`HTTPException`s (`except HTTPException: raise`, lines 728-729); convert any
other exception into the full fallback response. -/
def predict (cfg : ServingConfig) (req : PredictionRequest) (now : String) (nowDate : Date) :
    Except HTTPException PredictionResponse :=
  match predictBody cfg req now with
  | Except.ok resp => Except.ok resp
  | Except.error (PredictError.http e) => Except.error e
  | Except.error (PredictError.generic msg) => outerFallback req msg now nowDate


/-- A concrete weekly baseline table: ISO week 2 has mean climate
(100, 28, 75). -/
def histW : Historical :=
  { weekly := [(2, ⟨100, 28, 75⟩)], monthly := [] }


/-- A serving configuration whose persisted feature-name list contains a
feature (`prev_month_cases`, a training-only location-history feature) that
the serving builder never computes. -/
def cfgC2 : ServingConfig :=
  { modelLoaded := true
    model_type := "RandomForestClassifier"
    feature_names := some ["rainfall", "prev_month_cases"]
    encoderClasses := none
    historical := none
    classifier := fun _ => none
    sin2pi := fun _ => 0
    cos2pi := fun _ => 0
    sqrtQ := fun _ => 0
    log1pQ := fun _ => 0 }


/-- A plain serving configuration: model loaded, no persisted feature list,
no encoder, no cached baselines, classifier that raises (inner-`try` path). -/
def cfgW : ServingConfig :=
  { modelLoaded := true
    model_type := "RandomForestClassifier"
    feature_names := none
    encoderClasses := none
    historical := none
    classifier := fun _ => none
    sin2pi := fun _ => 0
    cos2pi := fun _ => 0
    sqrtQ := fun _ => 0
    log1pQ := fun _ => 0 }


/-- The week-1 record produced by `cfgW` for base climate (100, 28, 75)
starting 2025-01-06. -/
def recW6 : WeeklyForecast :=
  { week := "January 13–19", risk := "Moderate", probability := 9 / 20,
    outbreak_probability := 9 / 20,
    climate_used := ⟨102, 281 / 10, 151 / 2, "historical_average"⟩ }


/-- The `/predict` request used to refute C4 as stated: temperature 10 passes
input validation (the handler accepts 0–50 °C) but lies below the clamp
floor 20. -/
def reqC4 : PredictionRequest :=
  { barangay := "Morales", climate := ⟨100, 10, 75⟩, date := "2025-01-06" }


/-- The week-0 record produced for `reqC4`: the clamp raises the used
temperature from 10 to 20. -/
def recC4 : WeeklyForecast :=
  { week := "January 06–12", risk := "Moderate", probability := 9 / 20,
    outbreak_probability := 9 / 20,
    climate_used := ⟨100, 20, 75, "current"⟩ }


/-- The week-0 record of the `cfgW` scenario with an in-range base climate. -/
def recW4 : WeeklyForecast :=
  { week := "January 06–12", risk := "Moderate", probability := 9 / 20,
    outbreak_probability := 9 / 20,
    climate_used := ⟨100, 28, 75, "current"⟩ }


/-- A serving configuration whose persisted feature-name list is empty: the
reindexed feature frame has no columns, so every week of the loop raises the
explicit `ValueError` of lines 653-654 and takes the per-week fallback. -/
def cfgE : ServingConfig :=
  { modelLoaded := true
    model_type := "RandomForestClassifier"
    feature_names := some []
    encoderClasses := none
    historical := none
    classifier := fun _ => none
    sin2pi := fun _ => 0
    cos2pi := fun _ => 0
    sqrtQ := fun _ => 0
    log1pQ := fun _ => 0 }


/-- A request whose date does not parse (`strptime` raises). -/
def reqBad : PredictionRequest :=
  { barangay := "Morales", climate := ⟨100, 28, 75⟩, date := "not-a-date" }


/-- A well-formed request used by the witnesses. -/
def reqG : PredictionRequest :=
  { barangay := "Morales", climate := ⟨100, 28, 75⟩, date := "2025-01-06" }


/-- C1: Risk categorization is a pure deterministic step function of the
outbreak probability: `p < 0.30 → "Low"`, `0.30 ≤ p < 0.60 → "Moderate"`,
`p ≥ 0.60 → "High"`; in particular 0.0, 0.29999, 0.3, 0.59999, 0.6, 1.0 map
to Low, Low, Moderate, Moderate, High, High. -/
theorem C1_risk_level_step :
    (∀ p : ℚ, p < 30 / 100 → get_risk_level p = "Low") ∧
    (∀ p : ℚ, 30 / 100 ≤ p → p < 60 / 100 → get_risk_level p = "Moderate") ∧
    (∀ p : ℚ, 60 / 100 ≤ p → get_risk_level p = "High") ∧
    get_risk_level 0 = "Low" ∧
    get_risk_level (29999 / 100000) = "Low" ∧
    get_risk_level (30 / 100) = "Moderate" ∧
    get_risk_level (59999 / 100000) = "Moderate" ∧
    get_risk_level (60 / 100) = "High" ∧
    get_risk_level 1 = "High" := by
  refine ⟨fun p hp => ?_, fun p h1 h2 => ?_, fun p h => ?_, ?_, ?_, ?_, ?_, ?_, ?_⟩
  · rw [get_risk_level, if_pos hp]
  · rw [get_risk_level, if_neg (not_lt.mpr h1), if_pos h2]
  · rw [get_risk_level, if_neg (not_lt.mpr (le_trans (by norm_num) h)),
      if_neg (not_lt.mpr h)]
  all_goals norm_num [get_risk_level]


/-- Witness for C1 at the concrete probability 0.1. -/
theorem C1_witness :
    (1 / 10 : ℚ) < 30 / 100 ∧ get_risk_level (1 / 10) = "Low" :=
  ⟨by norm_num, C1_risk_level_step.1 (1 / 10) (by norm_num)⟩


/-- C3 (divergence witness): the "quarter" feature is *not* computed
consistently between training and serving.  On 2023-09-30 (day-of-year 273)
the serving builder `prepare_features` computes `273 // 91 + 1 = 4`, while the
training feature engineering (`df['date'].dt.quarter`) computes the calendar
quarter 3. -/
theorem C3_quarter_train_serve_divergence :
    ∀ (cfg : ServingConfig) (r t h : ℚ) (b : String),
      lookupKey "quarter" (computedFeatures cfg r t h b ⟨2023, 9, 30⟩) = some 4 ∧
      serveQuarter ⟨2023, 9, 30⟩ = 4 ∧
      trainQuarter ⟨2023, 9, 30⟩ = 3 := by
  intro cfg r t h b
  refine ⟨?_, by decide, by decide⟩
  have hq : serveQuarter ⟨2023, 9, 30⟩ = 4 := by decide
  simp [computedFeatures, lookupKey, hq]


/-- C5: whenever the target date's ISO week-of-year has a stored weekly
baseline, the climate estimator returns exactly that baseline transformed by
rainfall `* (1 + 0.03·k)`, temperature `+ 0.2·k`, humidity `+ 0.3·k` for every
week offset `k ≥ 0`; at `k = 0` this is the stored baseline unchanged. -/
theorem C5_weekly_tier_drift :
    ∀ (h : Historical) (d : Date) (base : Option Climate) (k : ℕ) (c : Climate),
      lookupKey (isoWeek d) h.weekly = some c →
      get_historical_climate_for_date (some h) d base k =
        { rainfall := c.rainfall * (1 + (k : ℚ) * (3 / 100)),
          temperature := c.temperature + (k : ℚ) * (2 / 10),
          humidity := c.humidity + (k : ℚ) * (3 / 10) } := by
  intro h d base k c hc
  simp only [get_historical_climate_for_date, hc]
  rcases Nat.eq_zero_or_pos k with hk | hk
  · subst hk
    cases c
    simp
  · rw [if_pos hk]


/-- Witness for C5: 2025-01-06 lies in ISO week 2, which is present in
`histW`, and the estimator at week offset 1 returns the drifted baseline. -/
theorem C5_witness :
    lookupKey (isoWeek ⟨2025, 1, 6⟩) histW.weekly = some ⟨100, 28, 75⟩ ∧
    get_historical_climate_for_date (some histW) ⟨2025, 1, 6⟩ none 1 =
      { rainfall := (100 : ℚ) * (1 + ((1 : ℕ) : ℚ) * (3 / 100)),
        temperature := (28 : ℚ) + ((1 : ℕ) : ℚ) * (2 / 10),
        humidity := (75 : ℚ) + ((1 : ℕ) : ℚ) * (3 / 10) } := by
  have hw : isoWeek ⟨2025, 1, 6⟩ = 2 := by decide
  have hc : lookupKey (isoWeek ⟨2025, 1, 6⟩) histW.weekly = some ⟨100, 28, 75⟩ := by
    simp [histW, hw, lookupKey]
  exact ⟨hc, C5_weekly_tier_drift histW ⟨2025, 1, 6⟩ none 1 ⟨100, 28, 75⟩ hc⟩


/-- Looking a key up in an appended association list falls through to the
second list when the first has no binding. -/
theorem lookupKey_append_of_none {α β : Type} [DecidableEq α] (a : α)
    (l1 l2 : List (α × β)) (h : lookupKey a l1 = none) :
    lookupKey a (l1 ++ l2) = lookupKey a l2 := by
  induction l1 with
  | nil => rfl
  | cons p rest ih =>
    obtain ⟨k, v⟩ := p
    by_cases hk : k = a
    · rw [lookupKey, if_pos hk] at h
      exact absurd h (by simp)
    · rw [lookupKey, if_neg hk] at h
      rw [List.cons_append, lookupKey, if_neg hk]
      exact ih h


/-- Looking up a member of `ms` in the constant-value table built from `ms`
yields that constant. -/
theorem lookupKey_map_const {α β : Type} [DecidableEq α] (a : α) (b : β)
    (ms : List α) (h : a ∈ ms) :
    lookupKey a (ms.map fun m => (m, b)) = some b := by
  induction ms with
  | nil => exact absurd h (List.not_mem_nil a)
  | cons m rest ih =>
    rw [List.map_cons, lookupKey]
    by_cases hm : m = a
    · rw [if_pos hm]
    · rw [if_neg hm]
      rcases List.mem_cons.mp h with hh | hh
      · exact absurd hh.symm hm
      · exact ih hh


/-- C2: when a persisted feature-name list is loaded, the feature vector
returned by `prepare_features` has exactly the columns of that list in that
exact order, and every listed feature the builder does not compute is present
with value 0. -/
theorem C2_feature_reindex :
    ∀ (cfg : ServingConfig) (r t hu : ℚ) (b : String) (d : Date) (names : List String),
      cfg.feature_names = some names →
      (prepare_features cfg r t hu b d).map Prod.fst = names ∧
      ∀ n ∈ names, lookupKey n (computedFeatures cfg r t hu b d) = none →
        (n, (0 : ℚ)) ∈ prepare_features cfg r t hu b d := by
  intro cfg r t hu b d names hn
  simp only [prepare_features, hn]
  constructor
  · rw [List.map_map]
    exact List.map_id names
  · intro n hmem hnone
    have hfill :
        lookupKey n (computedFeatures cfg r t hu b d ++
          (names.filter fun m => (lookupKey m (computedFeatures cfg r t hu b d)).isNone).map
            fun m => (m, (0 : ℚ))) = some 0 := by
      rw [lookupKey_append_of_none _ _ _ hnone]
      exact lookupKey_map_const n 0 _
        (List.mem_filter.mpr ⟨hmem, by rw [hnone]; rfl⟩)
    exact List.mem_map.mpr ⟨n, hmem, by rw [hfill]; rfl⟩


/-- Witness for C2: with the persisted list `["rainfall", "prev_month_cases"]`
the built vector has exactly those columns in order, and the never-computed
training feature `prev_month_cases` is present with value 0. -/
theorem C2_witness :
    cfgC2.feature_names = some ["rainfall", "prev_month_cases"] ∧
    (prepare_features cfgC2 100 28 75 "Morales" ⟨2025, 1, 6⟩).map Prod.fst =
      ["rainfall", "prev_month_cases"] ∧
    ("prev_month_cases", (0 : ℚ)) ∈ prepare_features cfgC2 100 28 75 "Morales" ⟨2025, 1, 6⟩ := by
  have h := C2_feature_reindex cfgC2 100 28 75 "Morales" ⟨2025, 1, 6⟩
    ["rainfall", "prev_month_cases"] rfl
  refine ⟨rfl, h.1, h.2 "prev_month_cases" (by simp) ?_⟩
  simp [computedFeatures, lookupKey]


/-- Round-half-even never rounds below the floor. -/
theorem roundHalfEven_ge_floor (x : ℚ) : ⌊x⌋ ≤ roundHalfEven x := by
  unfold roundHalfEven
  split_ifs <;> omega


/-- Round-half-even never rounds above the ceiling. -/
theorem roundHalfEven_le_floor_add_one (x : ℚ) : roundHalfEven x ≤ ⌊x⌋ + 1 := by
  unfold roundHalfEven
  split_ifs <;> omega


/-- Round-half-even is monotone. -/
theorem roundHalfEven_mono {x y : ℚ} (hxy : x ≤ y) :
    roundHalfEven x ≤ roundHalfEven y := by
  rcases lt_or_le ⌊x⌋ ⌊y⌋ with h | h
  · have h1 := roundHalfEven_le_floor_add_one x
    have h2 := roundHalfEven_ge_floor y
    omega
  · have hf : ⌊y⌋ = ⌊x⌋ := le_antisymm h (Int.floor_le_floor hxy)
    unfold roundHalfEven
    rw [hf]
    split_ifs <;> first | omega | linarith


/-- Integers round to themselves. -/
theorem roundHalfEven_intCast (m : ℤ) : roundHalfEven (m : ℚ) = m := by
  norm_num [roundHalfEven, Int.floor_intCast]


/-- Python `round(·, n)` is monotone. -/
theorem roundTo_mono (n : ℕ) {x y : ℚ} (hxy : x ≤ y) : roundTo n x ≤ roundTo n y := by
  unfold roundTo
  gcongr
  exact roundHalfEven_mono (by gcongr)


/-- A rational that is exactly representable with `n` decimal digits is a
fixed point of `round(·, n)`. -/
theorem roundTo_eq_self (n : ℕ) (x : ℚ) (m : ℤ) (h : x * 10 ^ n = (m : ℚ)) :
    roundTo n x = x := by
  unfold roundTo
  rw [h, roundHalfEven_intCast, ← h, mul_div_cancel_right₀]
  exact pow_ne_zero _ (by norm_num)


/-- C6: on the normal path of the forecast loop (weeks taken from the
estimator included), the climate recorded for the week satisfies
rainfall ≥ 0, temperature ∈ [20, 35] and humidity ∈ [40, 100], whatever the
estimator produced before the clamp. -/
theorem C6_orchestrator_clamp :
    ∀ (cfg : ServingConfig) (base : Climate) (start_date : Date) (b : String)
      (k : ℕ) (rec : WeeklyForecast), 1 ≤ k →
      processWeek cfg base start_date b k = Except.ok rec →
      0 ≤ rec.climate_used.rainfall ∧
      20 ≤ rec.climate_used.temperature ∧ rec.climate_used.temperature ≤ 35 ∧
      40 ≤ rec.climate_used.humidity ∧ rec.climate_used.humidity ≤ 100 := by
  intro cfg base start_date b k rec _hk hok
  simp only [processWeek] at hok
  split at hok
  · exact absurd hok (by simp)
  · have hrec := Except.ok.inj hok
    subst hrec
    dsimp only [clampClimate]
    refine ⟨?_, ?_, ?_, ?_, ?_⟩
    · calc (0 : ℚ) = roundTo 1 0 := (roundTo_eq_self 1 0 0 (by norm_num)).symm
        _ ≤ _ := roundTo_mono 1 (le_max_left _ _)
    · calc (20 : ℚ) = roundTo 1 20 := (roundTo_eq_self 1 20 200 (by norm_num)).symm
        _ ≤ _ := roundTo_mono 1 (le_max_left _ _)
    · calc roundTo 1 (max 20 (min 35 (weekClimate cfg base start_date k).temperature))
          ≤ roundTo 1 35 := roundTo_mono 1 (max_le (by norm_num) (min_le_left _ _))
        _ = 35 := roundTo_eq_self 1 35 350 (by norm_num)
    · calc (40 : ℚ) = roundTo 1 40 := (roundTo_eq_self 1 40 400 (by norm_num)).symm
        _ ≤ _ := roundTo_mono 1 (le_max_left _ _)
    · calc roundTo 1 (max 40 (min 100 (weekClimate cfg base start_date k).humidity))
          ≤ roundTo 1 100 := roundTo_mono 1 (max_le (by norm_num) (min_le_left _ _))
        _ = 100 := roundTo_eq_self 1 100 1000 (by norm_num)


/-- The week-1 body of the loop succeeds on the `cfgW` scenario and produces
`recW6`. -/
theorem processWeek_cfgW_week1 :
    processWeek cfgW ⟨100, 28, 75⟩ ⟨2025, 1, 6⟩ "Morales" 1 = Except.ok recW6 := by
  have had : addDays ⟨2025, 1, 6⟩ (7 * 1) = ⟨2025, 1, 13⟩ := by decide
  have hfw : format_week_range ⟨2025, 1, 13⟩ = "January 13–19" := by decide
  have r1 : roundTo 1 (102 : ℚ) = 102 := roundTo_eq_self 1 102 1020 (by norm_num)
  have r2 : roundTo 1 (281 / 10 : ℚ) = 281 / 10 := roundTo_eq_self 1 (281 / 10) 281 (by norm_num)
  have r3 : roundTo 1 (151 / 2 : ℚ) = 151 / 2 := roundTo_eq_self 1 (151 / 2) 755 (by norm_num)
  have r4 : roundTo 4 (9 / 20 : ℚ) = 9 / 20 := roundTo_eq_self 4 (9 / 20) 4500 (by norm_num)
  simp only [processWeek, weekClimate, cfgW, had, get_historical_climate_for_date,
    clampClimate, selectProbability, recW6]
  norm_num [prepare_features, computedFeatures, max_def, min_def, get_risk_level, hfw,
    r1, r2, r3, r4]


/-- Witness for C6: the concrete week-1 record of the `cfgW` scenario obeys
the clamp bounds. -/
theorem C6_witness :
    (1 : ℕ) ≤ 1 ∧
    processWeek cfgW ⟨100, 28, 75⟩ ⟨2025, 1, 6⟩ "Morales" 1 = Except.ok recW6 ∧
    (0 ≤ recW6.climate_used.rainfall ∧
      20 ≤ recW6.climate_used.temperature ∧ recW6.climate_used.temperature ≤ 35 ∧
      40 ≤ recW6.climate_used.humidity ∧ recW6.climate_used.humidity ≤ 100) :=
  ⟨le_refl 1, processWeek_cfgW_week1,
    C6_orchestrator_clamp cfgW ⟨100, 28, 75⟩ ⟨2025, 1, 6⟩ "Morales" 1 recW6
      (le_refl 1) processWeek_cfgW_week1⟩


/-- C4 (amended): the week at index 0 of the forecast uses the caller's base
climate *after* the orchestrator clamp — so exactly the request values
whenever the base already satisfies rainfall ≥ 0, temperature ∈ [20, 35] and
humidity ∈ [40, 100] (the recorded copy is rounded to one decimal) — and its
record carries provenance "current". -/
theorem C4_week0_clamped_base :
    ∀ (cfg : ServingConfig) (base : Climate) (start_date : Date) (b : String)
      (rec : WeeklyForecast),
      processWeek cfg base start_date b 0 = Except.ok rec →
      (forecastWeeks cfg base start_date b).head? = some rec ∧
      rec.climate_used.source = "current" ∧
      rec.climate_used.rainfall = roundTo 1 (clampClimate base).rainfall ∧
      rec.climate_used.temperature = roundTo 1 (clampClimate base).temperature ∧
      rec.climate_used.humidity = roundTo 1 (clampClimate base).humidity ∧
      (0 ≤ base.rainfall → 20 ≤ base.temperature → base.temperature ≤ 35 →
        40 ≤ base.humidity → base.humidity ≤ 100 → clampClimate base = base) := by
  intro cfg base start_date b rec hok
  have hr4 : List.range 4 = [0, 1, 2, 3] := by decide
  refine ⟨?_, ?_⟩
  · simp only [forecastWeeks, hr4, List.map_cons, List.head?_cons, hok]
  · simp only [processWeek, weekClimate] at hok
    norm_num at hok
    split at hok
    · exact absurd hok (by simp)
    · have hrec := Except.ok.inj hok
      subst hrec
      refine ⟨rfl, rfl, rfl, rfl, fun h1 h2 h3 h4 h5 => ?_⟩
      obtain ⟨r, t, hu⟩ := base
      simp only [clampClimate, Climate.mk.injEq]
      exact ⟨max_eq_right h1,
        by rw [min_eq_right h3, max_eq_right h2],
        by rw [min_eq_right h5, max_eq_right h4]⟩


/-- The week-0 loop body on `reqC4`'s data succeeds, but with the temperature
clamped to 20. -/
theorem processWeek_reqC4_week0 :
    processWeek cfgW ⟨100, 10, 75⟩ ⟨2025, 1, 6⟩ "Morales" 0 = Except.ok recC4 := by
  have hfw : format_week_range ⟨2025, 1, 6⟩ = "January 06–12" := by decide
  have had : addDays ⟨2025, 1, 6⟩ (7 * 0) = ⟨2025, 1, 6⟩ := by decide
  have r1 : roundTo 1 (100 : ℚ) = 100 := roundTo_eq_self 1 100 1000 (by norm_num)
  have r2 : roundTo 1 (20 : ℚ) = 20 := roundTo_eq_self 1 20 200 (by norm_num)
  have r3 : roundTo 1 (75 : ℚ) = 75 := roundTo_eq_self 1 75 750 (by norm_num)
  have r4 : roundTo 4 (9 / 20 : ℚ) = 9 / 20 := roundTo_eq_self 4 (9 / 20) 4500 (by norm_num)
  simp only [processWeek, weekClimate, cfgW, had, clampClimate, selectProbability, recC4]
  norm_num [prepare_features, computedFeatures, max_def, min_def, get_risk_level, hfw,
    r1, r2, r3, r4]


/-- Counterexample to C4 as stated: the request climate (100, 10, 75) passes
the handler's validation (`0 ≤ 10 ≤ 50`), yet the week-0 entry of the
response uses temperature 20, not the caller's 10, while carrying provenance
"current". -/
theorem C4_counterexample :
    ((0 : ℚ) ≤ 10 ∧ (10 : ℚ) ≤ 50) ∧
    (predict cfgW reqC4 "T" ⟨2025, 10, 12⟩).toOption.map
        (fun resp => resp.weekly_forecast.head?.map
          (fun rec => (rec.climate_used.temperature, rec.climate_used.source))) =
      some (some (20, "current")) ∧
    reqC4.climate.temperature = 10 ∧ (20 : ℚ) ≠ 10 := by
  refine ⟨by norm_num, ?_, rfl, by norm_num⟩
  have hm : cfgW.modelLoaded = true := rfl
  have hd : parseDate "2025-01-06" = some ⟨2025, 1, 6⟩ := by decide
  have hb : normalizeBarangay "Morales" = "Morales" := by decide
  have hr4 : List.range 4 = [0, 1, 2, 3] := by decide
  simp only [predict, predictBody, reqC4, hm, hd, hb]
  norm_num [forecastWeeks, hr4, processWeek_reqC4_week0, recC4]
  exact ⟨_, rfl, _, rfl, rfl, rfl⟩


/-- The week-0 loop body on the in-range base (100, 28, 75). -/
theorem processWeek_cfgW_week0 :
    processWeek cfgW ⟨100, 28, 75⟩ ⟨2025, 1, 6⟩ "Morales" 0 = Except.ok recW4 := by
  have hfw : format_week_range ⟨2025, 1, 6⟩ = "January 06–12" := by decide
  have had : addDays ⟨2025, 1, 6⟩ (7 * 0) = ⟨2025, 1, 6⟩ := by decide
  have r1 : roundTo 1 (100 : ℚ) = 100 := roundTo_eq_self 1 100 1000 (by norm_num)
  have r2 : roundTo 1 (28 : ℚ) = 28 := roundTo_eq_self 1 28 280 (by norm_num)
  have r3 : roundTo 1 (75 : ℚ) = 75 := roundTo_eq_self 1 75 750 (by norm_num)
  have r4 : roundTo 4 (9 / 20 : ℚ) = 9 / 20 := roundTo_eq_self 4 (9 / 20) 4500 (by norm_num)
  simp only [processWeek, weekClimate, cfgW, had, clampClimate, selectProbability, recW4]
  norm_num [prepare_features, computedFeatures, max_def, min_def, get_risk_level, hfw,
    r1, r2, r3, r4]


/-- Witness for the amended C4 on an in-range base climate: week 0 heads the
forecast with provenance "current" and the clamp leaves the base unchanged. -/
theorem C4_witness :
    processWeek cfgW ⟨100, 28, 75⟩ ⟨2025, 1, 6⟩ "Morales" 0 = Except.ok recW4 ∧
    (forecastWeeks cfgW ⟨100, 28, 75⟩ ⟨2025, 1, 6⟩ "Morales").head? = some recW4 ∧
    recW4.climate_used.source = "current" ∧
    clampClimate ⟨100, 28, 75⟩ = ⟨100, 28, 75⟩ := by
  have h := C4_week0_clamped_base cfgW ⟨100, 28, 75⟩ ⟨2025, 1, 6⟩ "Morales" recW4
    processWeek_cfgW_week0
  exact ⟨processWeek_cfgW_week0, h.1, h.2.1,
    h.2.2.2.2.2 (by norm_num) (by norm_num) (by norm_num) (by norm_num) (by norm_num)⟩


/-- C7 (amended): if the processing of an individual forecast week raises,
that week's entry is the full fallback record — risk "Moderate", probability
0.45, climate equal to the caller-supplied base climate rounded to one
decimal (not the attempted historical estimate), provenance "fallback" — and
the remaining weeks are still processed (the output has exactly 4 entries). -/
theorem C7_week_fallback :
    ∀ (cfg : ServingConfig) (base : Climate) (start_date : Date) (b : String)
      (k : ℕ) (e : String), k < 4 →
      processWeek cfg base start_date b k = Except.error e →
      (forecastWeeks cfg base start_date b).length = 4 ∧
      (forecastWeeks cfg base start_date b)[k]? =
        some (fallbackWeekRecord base start_date k) ∧
      (fallbackWeekRecord base start_date k).risk = "Moderate" ∧
      (fallbackWeekRecord base start_date k).probability = 45 / 100 ∧
      (fallbackWeekRecord base start_date k).climate_used.rainfall = roundTo 1 base.rainfall ∧
      (fallbackWeekRecord base start_date k).climate_used.temperature = roundTo 1 base.temperature ∧
      (fallbackWeekRecord base start_date k).climate_used.humidity = roundTo 1 base.humidity ∧
      (fallbackWeekRecord base start_date k).climate_used.source = "fallback" := by
  intro cfg base start_date b k e hk herr
  refine ⟨by simp [forecastWeeks], ?_, rfl, rfl, rfl, rfl, rfl, rfl⟩
  simp only [forecastWeeks, List.getElem?_map, List.getElem?_range hk, Option.map_some', herr]


/-- Under `cfgE` every week's body raises (empty feature frame). -/
theorem processWeek_cfgE_error :
    ∀ (base : Climate) (start_date : Date) (b : String) (k : ℕ),
      processWeek cfgE base start_date b k = Except.error "Empty features DataFrame" := by
  intro base start_date b k
  simp [processWeek, prepare_features, cfgE]


/-- Rounding 100.25 to one decimal gives 100.2 (ties to even). -/
theorem roundTo_one_hundredQuarter : roundTo 1 (401 / 4 : ℚ) = 501 / 5 := by
  have h1 : (401 / 4 : ℚ) * 10 ^ 1 = 1002 + 1 / 2 := by norm_num
  have h2 : ⌊(1002 + 1 / 2 : ℚ)⌋ = 1002 := by
    rw [Int.floor_eq_iff]
    norm_num
  unfold roundTo roundHalfEven
  rw [h1, h2]
  norm_num


/-- Counterexample to C7 as stated: with base rainfall 100.25 the failed
week-0 entry carries rainfall 100.2 — the rounded base, not the base itself
(the entry is otherwise the fallback record the claim describes). -/
theorem C7_counterexample :
    processWeek cfgE ⟨401 / 4, 28, 75⟩ ⟨2025, 1, 6⟩ "Morales" 0 =
      Except.error "Empty features DataFrame" ∧
    (forecastWeeks cfgE ⟨401 / 4, 28, 75⟩ ⟨2025, 1, 6⟩ "Morales").head? =
      some (fallbackWeekRecord ⟨401 / 4, 28, 75⟩ ⟨2025, 1, 6⟩ 0) ∧
    (fallbackWeekRecord ⟨401 / 4, 28, 75⟩ ⟨2025, 1, 6⟩ 0).climate_used.source = "fallback" ∧
    (fallbackWeekRecord ⟨401 / 4, 28, 75⟩ ⟨2025, 1, 6⟩ 0).climate_used.rainfall = 501 / 5 ∧
    (501 / 5 : ℚ) ≠ 401 / 4 := by
  have hr4 : List.range 4 = [0, 1, 2, 3] := by decide
  refine ⟨processWeek_cfgE_error _ _ _ 0, ?_, rfl, ?_, by norm_num⟩
  · simp only [forecastWeeks, hr4, List.map_cons, List.head?_cons,
      processWeek_cfgE_error _ _ _ 0]
  · show roundTo 1 (401 / 4 : ℚ) = 501 / 5
    exact roundTo_one_hundredQuarter


/-- Witness for the amended C7: under `cfgE` week 0 raises and the output's
entry 0 is the fallback record, with 4 entries in total. -/
theorem C7_witness :
    (0 : ℕ) < 4 ∧
    processWeek cfgE ⟨100, 28, 75⟩ ⟨2025, 1, 6⟩ "Morales" 0 =
      Except.error "Empty features DataFrame" ∧
    (forecastWeeks cfgE ⟨100, 28, 75⟩ ⟨2025, 1, 6⟩ "Morales").length = 4 ∧
    (forecastWeeks cfgE ⟨100, 28, 75⟩ ⟨2025, 1, 6⟩ "Morales")[0]? =
      some (fallbackWeekRecord ⟨100, 28, 75⟩ ⟨2025, 1, 6⟩ 0) := by
  have h := C7_week_fallback cfgE ⟨100, 28, 75⟩ ⟨2025, 1, 6⟩ "Morales" 0
    "Empty features DataFrame" (by norm_num) (processWeek_cfgE_error _ _ _ 0)
  exact ⟨by norm_num, processWeek_cfgE_error _ _ _ 0, h.1, h.2.1⟩


/-- The forecast loop always appends 4 records, so its output is never empty. -/
theorem forecastWeeks_ne_nil (cfg : ServingConfig) (base : Climate)
    (start_date : Date) (b : String) :
    forecastWeeks cfg base start_date b ≠ [] := by
  simp [forecastWeeks]


/-- The handler body never raises a non-HTTP exception: the only generic
`raise` (the empty-forecast check) is unreachable because the loop always
yields 4 records. -/
theorem predictBody_not_generic (cfg : ServingConfig) (req : PredictionRequest)
    (now msg : String) :
    predictBody cfg req now ≠ Except.error (PredictError.generic msg) := by
  intro h
  unfold predictBody at h
  split_ifs at h
  all_goals try simp at h
  split at h
  · simp at h
  · rw [if_neg (forecastWeeks_ne_nil _ _ _ _)] at h
    simp at h


/-- Shape of a successful handler body: the request date parsed, the
forecast is the 4-week loop output, and `model_info` carries the call-time
timestamp. -/
theorem predictBody_ok_shape (cfg : ServingConfig) (req : PredictionRequest)
    (now : String) (resp : PredictionResponse)
    (h : predictBody cfg req now = Except.ok resp) :
    ∃ d, parseDate req.date = some d ∧
      resp = { weekly_forecast := forecastWeeks cfg req.climate d (normalizeBarangay req.barangay),
               model_info := ⟨some cfg.model_type, some (cfg.feature_names.getD []),
                 none, now⟩ } := by
  unfold predictBody at h
  split_ifs at h
  all_goals try simp at h
  split at h
  · simp at h
  · rename_i d hp
    rw [if_neg (forecastWeeks_ne_nil _ _ _ _)] at h
    simp at h
    exact ⟨d, hp, h.symm⟩


/-- A successful `/predict` response always comes from the handler body (the
outer fallback is unreachable because no generic exception is ever raised). -/
theorem predict_ok_inv (cfg : ServingConfig) (req : PredictionRequest)
    (now : String) (nd : Date) (resp : PredictionResponse)
    (h : predict cfg req now nd = Except.ok resp) :
    predictBody cfg req now = Except.ok resp := by
  unfold predict at h
  rcases hb : predictBody cfg req now with pe | r
  · rcases pe with e | msg
    · rw [hb] at h
      simp at h
    · exact absurd hb (predictBody_not_generic cfg req now msg)
  · rw [hb] at h
    simp at h
    subst h
    rfl


/-- Every error escaping `/predict` is one of the re-raised validation /
missing-model `HTTPException`s (status 503 or 400). -/
theorem predict_error_status (cfg : ServingConfig) (req : PredictionRequest)
    (now : String) (nd : Date) (e : HTTPException)
    (h : predict cfg req now nd = Except.error e) :
    e.status = 503 ∨ e.status = 400 := by
  unfold predict at h
  rcases hb : predictBody cfg req now with pe | r
  · rcases pe with e2 | msg
    · rw [hb] at h
      simp at h
      subst h
      unfold predictBody at hb
      split_ifs at hb <;> try (simp at hb; subst hb; simp)
      split at hb
      · simp at hb
        subst hb
        simp
      · simp [forecastWeeks] at hb
    · exact absurd hb (predictBody_not_generic cfg req now msg)
  · rw [hb] at h
    simp at h


/-- C8 (amended): every hard failure escaping `/predict` is a re-raised
HTTP validation/missing-model error (status 503 or 400) — in particular an
unparseable request date surfaces as a 400, not as degraded output; and when
the outer handler does catch a non-HTTP exception it returns 4 fallback
records (risk "Moderate", probability 0.45, provenance "fallback") built from
the caller-supplied climate. -/
theorem C8_error_handling :
    (∀ (cfg : ServingConfig) (req : PredictionRequest) (now : String) (nd : Date)
       (e : HTTPException), predict cfg req now nd = Except.error e →
       e.status = 503 ∨ e.status = 400) ∧
    (∀ (req : PredictionRequest) (msg now : String) (nd : Date) (d : Date),
       parseDate req.date = some d →
       outerFallback req msg now nd = Except.ok
         { weekly_forecast := (List.range 4).map fun k => fallbackWeekRecord req.climate d k,
           model_info := ⟨none, none, some msg, now⟩ } ∧
       ((List.range 4).map fun k => fallbackWeekRecord req.climate d k).length = 4) ∧
    (∀ (base : Climate) (start_date : Date) (k : ℕ),
       (fallbackWeekRecord base start_date k).risk = "Moderate" ∧
       (fallbackWeekRecord base start_date k).probability = 45 / 100 ∧
       (fallbackWeekRecord base start_date k).climate_used.source = "fallback") := by
  refine ⟨predict_error_status, ?_, fun base start_date k => ⟨rfl, rfl, rfl⟩⟩
  intro req msg now nd d hp
  unfold outerFallback
  by_cases he : req.date = ""
  · rw [he, show parseDate "" = none from by decide] at hp
    exact Option.noConfusion hp
  · rw [if_neg he, hp]
    exact ⟨rfl, by simp⟩


/-- Counterexample to C8 as stated: on the claim's own example — an
unparseable request date — the caller receives a hard HTTP 400 failure from
the re-raising `except HTTPException` clause, not a 4-week fallback
response. -/
theorem C8_counterexample :
    predict cfgW reqBad "T" ⟨2025, 10, 12⟩ =
      Except.error ⟨400, "Invalid date format. Use YYYY-MM-DD"⟩ := by
  have hm : cfgW.modelLoaded = true := rfl
  have hd : parseDate "not-a-date" = none := by decide
  simp only [predict, predictBody, reqBad, hm, hd]
  norm_num


/-- Witness for the amended C8: the concrete bad-date request yields the
400 error, whose status is among the allowed hard-failure statuses, and the
outer fallback handler on a parseable date returns the 4 fallback records. -/
theorem C8_witness :
    predict cfgW reqBad "T" ⟨2025, 10, 12⟩ =
      Except.error ⟨400, "Invalid date format. Use YYYY-MM-DD"⟩ ∧
    ((⟨400, "Invalid date format. Use YYYY-MM-DD"⟩ : HTTPException).status = 503 ∨
      (⟨400, "Invalid date format. Use YYYY-MM-DD"⟩ : HTTPException).status = 400) ∧
    parseDate reqG.date = some ⟨2025, 1, 6⟩ ∧
    outerFallback reqG "boom" "T" ⟨2025, 10, 12⟩ = Except.ok
      { weekly_forecast := (List.range 4).map fun k => fallbackWeekRecord reqG.climate ⟨2025, 1, 6⟩ k,
        model_info := ⟨none, none, some "boom", "T"⟩ } := by
  have herr : predict cfgW reqBad "T" ⟨2025, 10, 12⟩ =
      Except.error ⟨400, "Invalid date format. Use YYYY-MM-DD"⟩ := by
    have hm : cfgW.modelLoaded = true := rfl
    have hd : parseDate "not-a-date" = none := by decide
    simp only [predict, predictBody, reqBad, hm, hd]
    norm_num
  exact ⟨herr, C8_error_handling.1 cfgW reqBad "T" ⟨2025, 10, 12⟩ _ herr, by decide,
    (C8_error_handling.2.1 reqG "boom" "T" ⟨2025, 10, 12⟩ ⟨2025, 1, 6⟩ (by decide)).1⟩


/-- C9 (amended): the forecast proper is deterministic — two successful
calls with identical request and configuration return identical
`weekly_forecast` lists, whatever the wall-clock times of the calls. -/
theorem C9_weekly_forecast_deterministic :
    ∀ (cfg : ServingConfig) (req : PredictionRequest) (now1 now2 : String)
      (nd1 nd2 : Date) (r1 r2 : PredictionResponse),
      predict cfg req now1 nd1 = Except.ok r1 →
      predict cfg req now2 nd2 = Except.ok r2 →
      r1.weekly_forecast = r2.weekly_forecast := by
  intro cfg req now1 now2 nd1 nd2 r1 r2 h1 h2
  obtain ⟨d1, hd1, hs1⟩ := predictBody_ok_shape _ _ _ _ (predict_ok_inv _ _ _ _ _ h1)
  obtain ⟨d2, hd2, hs2⟩ := predictBody_ok_shape _ _ _ _ (predict_ok_inv _ _ _ _ _ h2)
  rw [hd1] at hd2
  obtain rfl := Option.some.inj hd2
  rw [hs1, hs2]


/-- On the plain scenario `cfgW` the `/predict` handler succeeds, and its
`model_info.prediction_date` is the wall-clock argument. -/
theorem predict_cfgW_reqG (now : String) (nd : Date) :
    predict cfgW reqG now nd = Except.ok
      { weekly_forecast := forecastWeeks cfgW reqG.climate ⟨2025, 1, 6⟩ "Morales",
        model_info := ⟨some "RandomForestClassifier", some [], none, now⟩ } := by
  have hm : cfgW.modelLoaded = true := rfl
  have hmt : cfgW.model_type = "RandomForestClassifier" := rfl
  have hfn : cfgW.feature_names = none := rfl
  have hd : parseDate "2025-01-06" = some ⟨2025, 1, 6⟩ := by decide
  have hb : normalizeBarangay "Morales" = "Morales" := by decide
  have hne : (forecastWeeks cfgW ⟨100, 28, 75⟩ ⟨2025, 1, 6⟩ "Morales").isEmpty = false := by
    simp [forecastWeeks]
  simp only [predict, predictBody, reqG, hm, hmt, hfn, hd, hb]
  rw [hne]
  norm_num


/-- Counterexample to C9 as stated: two calls with identical inputs against
an unchanged configuration differ byte-wise, because `model_info` embeds
`datetime.now()` as `prediction_date`. -/
theorem C9_counterexample :
    predict cfgW reqG "2025-10-12T00:00:00" ⟨2025, 10, 12⟩ ≠
      predict cfgW reqG "2025-10-12T00:00:01" ⟨2025, 10, 12⟩ := by
  rw [predict_cfgW_reqG, predict_cfgW_reqG]
  intro h
  have h2 := congrArg (fun r => r.model_info.prediction_date) (Except.ok.inj h)
  exact absurd h2 (by decide)


/-- Witness for the amended C9: two concrete calls at different wall-clock
times succeed and their `weekly_forecast` lists coincide. -/
theorem C9_witness :
    predict cfgW reqG "T1" ⟨2025, 10, 12⟩ = Except.ok
      { weekly_forecast := forecastWeeks cfgW reqG.climate ⟨2025, 1, 6⟩ "Morales",
        model_info := ⟨some "RandomForestClassifier", some [], none, "T1"⟩ } ∧
    predict cfgW reqG "T2" ⟨2025, 10, 12⟩ = Except.ok
      { weekly_forecast := forecastWeeks cfgW reqG.climate ⟨2025, 1, 6⟩ "Morales",
        model_info := ⟨some "RandomForestClassifier", some [], none, "T2"⟩ } ∧
    (PredictionResponse.mk (forecastWeeks cfgW reqG.climate ⟨2025, 1, 6⟩ "Morales")
        ⟨some "RandomForestClassifier", some [], none, "T1"⟩).weekly_forecast =
      (PredictionResponse.mk (forecastWeeks cfgW reqG.climate ⟨2025, 1, 6⟩ "Morales")
        ⟨some "RandomForestClassifier", some [], none, "T2"⟩).weekly_forecast :=
  ⟨predict_cfgW_reqG "T1" ⟨2025, 10, 12⟩, predict_cfgW_reqG "T2" ⟨2025, 10, 12⟩,
    C9_weekly_forecast_deterministic cfgW reqG "T1" "T2" ⟨2025, 10, 12⟩ ⟨2025, 10, 12⟩ _ _
      (predict_cfgW_reqG "T1" ⟨2025, 10, 12⟩) (predict_cfgW_reqG "T2" ⟨2025, 10, 12⟩)⟩


/-- The selected probability always lands in the unit interval. -/
theorem selectProbability_mem_unit (probs : Option (ℚ × ℚ)) :
    0 ≤ selectProbability probs ∧ selectProbability probs ≤ 1 := by
  unfold selectProbability
  rcases probs with _ | p <;> simp only []
  · norm_num
  · split_ifs with h
    · exact h
    · norm_num


/-- A successful week record stores `round(q, 4)` of a probability
`q ∈ [0, 1]` and labels it with `get_risk_level q`. -/
theorem processWeek_ok_probability (cfg : ServingConfig) (base : Climate)
    (start_date : Date) (b : String) (k : ℕ) (rec : WeeklyForecast)
    (hok : processWeek cfg base start_date b k = Except.ok rec) :
    ∃ q, 0 ≤ q ∧ q ≤ 1 ∧ rec.probability = roundTo 4 q ∧ rec.risk = get_risk_level q := by
  simp only [processWeek] at hok
  split at hok
  · exact absurd hok (by simp)
  · have hrec := Except.ok.inj hok
    subst hrec
    exact ⟨_, (selectProbability_mem_unit _).1, (selectProbability_mem_unit _).2, rfl, rfl⟩


/-- Rounding to 4 decimals keeps a probability inside the unit interval. -/
theorem roundTo_mem_unit {q : ℚ} (h0 : 0 ≤ q) (h1 : q ≤ 1) :
    0 ≤ roundTo 4 q ∧ roundTo 4 q ≤ 1 := by
  constructor
  · calc (0 : ℚ) = roundTo 4 0 := (roundTo_eq_self 4 0 0 (by norm_num)).symm
      _ ≤ roundTo 4 q := roundTo_mono 4 h0
  · calc roundTo 4 q ≤ roundTo 4 1 := roundTo_mono 4 h1
      _ = 1 := roundTo_eq_self 4 1 10000 (by norm_num)


/-- C10 statement (draft). -/
theorem C10_probability_unit_interval :
    (∀ (cfg : ServingConfig) (req : PredictionRequest) (now : String) (nd : Date)
       (resp : PredictionResponse), predict cfg req now nd = Except.ok resp →
       ∀ rec ∈ resp.weekly_forecast, 0 ≤ rec.probability ∧ rec.probability ≤ 1) ∧
    (∀ (req : PredictionRequest) (msg now : String) (nd : Date)
       (resp : PredictionResponse), outerFallback req msg now nd = Except.ok resp →
       ∀ rec ∈ resp.weekly_forecast, rec.probability = 45 / 100) ∧
    (∀ p : ℚ × ℚ, ¬(0 ≤ p.2 ∧ p.2 ≤ 1) → selectProbability (some p) = 45 / 100) ∧
    selectProbability none = 45 / 100 ∧
    (∀ (cfg : ServingConfig) (base : Climate) (start_date : Date) (b : String)
       (k : ℕ) (rec : WeeklyForecast), processWeek cfg base start_date b k = Except.ok rec →
       ∃ q, 0 ≤ q ∧ q ≤ 1 ∧ rec.probability = roundTo 4 q ∧ rec.risk = get_risk_level q) := by
  refine ⟨?_, ?_, ?_, by unfold selectProbability; norm_num, processWeek_ok_probability⟩
  · intro cfg req now nd resp h rec hmem
    obtain ⟨d, _, hshape⟩ := predictBody_ok_shape _ _ _ _ (predict_ok_inv _ _ _ _ _ h)
    subst hshape
    simp only [forecastWeeks] at hmem
    obtain ⟨k, _, hrec⟩ := List.mem_map.mp hmem
    rcases hpk : processWeek cfg req.climate d (normalizeBarangay req.barangay) k with e | r
    · rw [hpk] at hrec
      simp only [] at hrec
      subst hrec
      norm_num [fallbackWeekRecord]
    · rw [hpk] at hrec
      simp only [] at hrec
      subst hrec
      obtain ⟨q, h0, h1, hp, _⟩ := processWeek_ok_probability _ _ _ _ _ _ hpk
      rw [hp]
      exact roundTo_mem_unit h0 h1
  · intro req msg now nd resp h rec hmem
    unfold outerFallback at h
    split at h
    · exact absurd h (by simp)
    · have hresp := Except.ok.inj h
      subst hresp
      simp only [List.mem_map] at hmem
      obtain ⟨k, _, hrec⟩ := hmem
      subst hrec
      rfl
  · intro p hp
    unfold selectProbability
    simp only []
    rw [if_neg hp]


/-- Witness for C10: a concrete successful response whose first record's
probability is in `[0, 1]`, and a concrete out-of-range classifier output
(3/2) that is replaced by 0.45. -/
theorem C10_witness :
    predict cfgW reqG "T" ⟨2025, 10, 12⟩ = Except.ok
      { weekly_forecast := forecastWeeks cfgW reqG.climate ⟨2025, 1, 6⟩ "Morales",
        model_info := ⟨some "RandomForestClassifier", some [], none, "T"⟩ } ∧
    recW4 ∈ forecastWeeks cfgW reqG.climate ⟨2025, 1, 6⟩ "Morales" ∧
    (0 ≤ recW4.probability ∧ recW4.probability ≤ 1) ∧
    ¬(0 ≤ ((11 / 20, 3 / 2) : ℚ × ℚ).2 ∧ ((11 / 20, 3 / 2) : ℚ × ℚ).2 ≤ 1) ∧
    selectProbability (some (11 / 20, 3 / 2)) = 45 / 100 := by
  have hmem : recW4 ∈ forecastWeeks cfgW reqG.climate ⟨2025, 1, 6⟩ "Morales" := by
    have hr4 : List.range 4 = [0, 1, 2, 3] := by decide
    simp only [forecastWeeks, hr4, List.map_cons, reqG, processWeek_cfgW_week0]
    exact List.mem_cons_self _ _
  exact ⟨predict_cfgW_reqG "T" ⟨2025, 10, 12⟩, hmem,
    C10_probability_unit_interval.1 cfgW reqG "T" ⟨2025, 10, 12⟩ _
      (predict_cfgW_reqG "T" ⟨2025, 10, 12⟩) recW4 hmem,
    by norm_num,
    C10_probability_unit_interval.2.2.1 (11 / 20, 3 / 2) (by norm_num)⟩


end Denguess
